import Mathlib

/-!
Verification of the Lighthouse demo SDK (AlanPaccor/lighthouse-demodummy-site).

Shallow embedding of the two trackFetch implementations (the browser SDK in
src/src/App.tsx and the node test script test-sdk.js), of sendTrace, and of
the demo-backend result processing in App.tsx's testDemoBackend.

JS strings are modelled by Lean String; lengths count Lean characters where
JS counts UTF-16 units (the claims are phrased over abstract "units").
Timestamps taken by Date.now() are passed in explicitly (t0 at start, t1 for
the success-path call, t2 for the catch-path call).  Outcomes of the external
fetch calls are passed in as Except values; a thrown JS value is either an
Error carrying a message or some non-Error value.
-/

namespace LighthouseDemo

/-- A thrown JS value: an Error with a message, or any non-Error value. -/
inductive JsThrow where
  | error (message : String)
  | other
deriving DecidableEq

/-- Result of a successful fetch together with the text of the cloned body
(App.tsx line 105-106: `fetch` then `response.clone().text()`). -/
structure FetchOk where
  status : Nat
  text : String
deriving DecidableEq

/-- JS values that can sit in a metadata record.  `undef` models the JS value
`undefined` stored under a present key (e.g. `confidenceScore: undefined`). -/
inductive JsVal where
  | str (s : String)
  | num (q : ℚ)
  | bool (b : Bool)
  | null
  | undefined
deriving DecidableEq

/-- JS truthiness of a metadata value. -/
def truthy : JsVal → Bool
  | .str s => decide (s ≠ "")
  | .num q => decide (q ≠ 0)
  | .bool b => b
  | .null => false
  | .undefined => false

/-- JS String(...) coercion (App.tsx line 93: `String(metadata.prompt)`). -/
def coerceStr : JsVal → String
  | .str s => s
  | .num q => toString q
  | .bool b => if b then "true" else "false"
  | .null => "null"
  | .undefined => "undefined"

/-- A metadata record: lookup of a key; `none` means the key is absent. -/
abbrev Meta := String → Option JsVal

/-- `s.substring(0, n)`: the first `n` units of `s` (all of `s` if shorter). -/
def jsSubstring (s : String) (n : Nat) : String := ⟨s.data.take n⟩

/-- Fate of `options.body` in App.tsx lines 94-100.  `noBody` covers an
absent or falsy body (the `else if (options?.body)` guard is not taken);
otherwise the body is a string handed to `JSON.parse`, which throws
(`parseThrow`), or yields `null` (`parsedNull`: reading `.prompt` throws, the
catch recovers), a non-object primitive (`parsedNonObj`: `.prompt` is
undefined), or an object whose `prompt` field is the given optional string. -/
inductive BodyParse where
  | noBody
  | parseThrow
  | parsedNull
  | parsedNonObj
  | parsedObj (prompt : Option String)
deriving DecidableEq

/-- The slice of RequestInit that trackFetch reads: `method` and `body`. -/
structure Options where
  method : Option String
  body : BodyParse
deriving DecidableEq

def getBody : Option Options → BodyParse
  | none => .noBody
  | some o => o.body

def metaGet : Option Meta → String → Option JsVal
  | none, _ => none
  | some m, k => m k

/-- The body of the try block in App.tsx lines 95-97, with its throws made
explicit: `JSON.parse(options.body)` may throw a SyntaxError; reading
`.prompt` of a parsed `null` throws a TypeError; otherwise `body.prompt || ''`
yields the prompt string when truthy and the empty string when falsy. -/
def bodyPromptE : BodyParse → Except JsThrow String
  | .noBody => .ok ""
  | .parseThrow => .error (.error "SyntaxError")
  | .parsedNull => .error (.error "TypeError")
  | .parsedNonObj => .ok ""
  | .parsedObj p =>
    match p with
    | some s => .ok (if s = "" then "" else s)
    | none => .ok ""

/-- App.tsx lines 94-100 with the catch applied: any throw from the body
parse is recovered to the empty string. -/
def bodyPrompt (b : BodyParse) : String :=
  match bodyPromptE b with
  | .ok s => s
  | .error _ => ""

/-- Effective-prompt resolution of App.tsx lines 91-101: a truthy
`metadata.prompt` wins, otherwise the request body is parsed. -/
def resolvePromptTsx (m : Option Meta) (b : BodyParse) : String :=
  match metaGet m "prompt" with
  | some v => if truthy v then coerceStr v else bodyPrompt b
  | none => bodyPrompt b

/-- Effective-prompt resolution with the throws of the body parse kept
visible and the source's catch applied (App.tsx lines 91-101). -/
def resolvePromptTsxE (m : Option Meta) (b : BodyParse) : Except JsThrow String :=
  match metaGet m "prompt" with
  | some v =>
    if truthy v then .ok (coerceStr v)
    else
      match bodyPromptE b with
      | .ok s => .ok s
      | .error _ => .ok ""
  | none =>
    match bodyPromptE b with
    | .ok s => .ok s
    | .error _ => .ok ""

/-- Effective-prompt resolution of test-sdk.js line 13:
`metadata?.prompt || ''` — no body parsing at all. -/
def resolvePromptJs (m : Option Meta) : String :=
  match metaGet m "prompt" with
  | some v => if truthy v then coerceStr v else ""
  | none => ""

/-- `(metadata?.provider as string) || 'openai'` (App.tsx line 102,
test-sdk.js line 14). -/
def providerOf (m : Option Meta) : String :=
  match metaGet m "provider" with
  | some v => if truthy v then coerceStr v else "openai"
  | none => "openai"

/-- `options?.method || 'GET'` (App.tsx line 120, test-sdk.js line 32). -/
def methodOf : Option Options → String
  | some o =>
    match o.method with
    | some s => if s = "" then "GET" else s
    | none => "GET"
  | none => "GET"

/-- The canonical trace record (App.tsx interface Trace, lines 12-20). -/
structure Trace where
  prompt : String
  response : String
  tokensUsed : Nat
  costUsd : ℚ
  latencyMs : Nat
  provider : String
  metadata : Meta

/-- `Math.ceil((prompt.length + responseText.length) / 4)` (App.tsx line
108, test-sdk.js line 20), as a natural-number ceiling division. -/
def tokensOf (p r : String) : Nat := (p.length + r.length + 3) / 4

/-- `(tokensUsed / 1000) * 0.002` (App.tsx line 109, test-sdk.js line 21). -/
def costOf (t : Nat) : ℚ := ((t : ℚ) / 1000) * (2 / 1000)

/-- The synthesized metadata keys of the success trace:
`{ url, method: options?.method || 'GET', statusCode: response.status }`. -/
def synthMeta (url : String) (opts : Option Options) (status : Nat) : Meta := fun k =>
  if k = "url" then some (.str url)
  else if k = "method" then some (.str (methodOf opts))
  else if k = "statusCode" then some (.num (status : ℚ))
  else none

/-- The object-spread merge `{ url, method, statusCode, ...metadata }`:
a key of the caller metadata overrides the synthesized entry. -/
def mergeMeta (m : Option Meta) (synth : Meta) : Meta := fun k =>
  match metaGet m k with
  | some v => some v
  | none => synth k

/-- The success-path trace of App.tsx lines 111-124 (identical in
test-sdk.js lines 23-36).  `prompt` is the resolved effective prompt. -/
def buildSuccessTrace (prompt provider url : String) (opts : Option Options)
    (m : Option Meta) (text : String) (status : Nat) (latency : Nat) : Trace :=
  { prompt := jsSubstring prompt 10000
    response := jsSubstring text 50000
    tokensUsed := tokensOf prompt text
    costUsd := costOf (tokensOf prompt text)
    latencyMs := latency
    provider := provider
    metadata := mergeMeta m (synthMeta url opts status) }

/-- `error instanceof Error ? error.message : 'Unknown error'`
(App.tsx line 131). -/
def errMessageTsx : JsThrow → String
  | .error m => m
  | .other => "Unknown error"

/-- The error-path trace of App.tsx lines 132-140: zero tokens and cost, a
synthesized `Error: ...` response, and metadata holding only the error flag
and message. -/
def buildErrTraceTsx (prompt provider : String) (e : JsThrow) (latency : Nat) : Trace :=
  { prompt := jsSubstring prompt 10000
    response := "Error: " ++ errMessageTsx e
    tokensUsed := 0
    costUsd := 0
    latencyMs := latency
    provider := if provider = "" then "unknown" else provider
    metadata := fun k =>
      if k = "error" then some (.bool true)
      else if k = "errorMessage" then some (.str (errMessageTsx e))
      else none }

/-- `error.message` interpolated into a template string in test-sdk.js line
43: a non-Error thrown value renders as the text `undefined`. -/
def errMessageTextJs : JsThrow → String
  | .error m => m
  | .other => "undefined"

/-- `errorMessage: error.message` as a metadata value in test-sdk.js line
48: a non-Error thrown value stores the JS value `undefined`. -/
def errMessageValJs : JsThrow → JsVal
  | .error m => .str m
  | .other => .undefined

/-- The error-path trace of test-sdk.js lines 41-49. -/
def buildErrTraceJs (prompt provider : String) (e : JsThrow) (latency : Nat) : Trace :=
  { prompt := jsSubstring prompt 10000
    response := "Error: " ++ errMessageTextJs e
    tokensUsed := 0
    costUsd := 0
    latencyMs := latency
    provider := if provider = "" then "unknown" else provider
    metadata := fun k =>
      if k = "error" then some (.bool true)
      else if k = "errorMessage" then some (errMessageValJs e)
      else none }

/-- Result of one App.tsx trackFetch call: the value returned or thrown to
the caller, the traces handed to sendTrace (in order), and the console
warnings emitted by the fire-and-forget `.catch` handler. -/
structure TrackResultTsx where
  outcome : Except (JsThrow × Trace) (FetchOk × Trace)
  sent : List Trace
  warnings : List String

/-- App.tsx trackFetch (lines 89-144).  `fres` is the outcome of
`fetch(url, options)` plus `response.clone().text()`; `sendRes` is the
eventual outcome of the one `sendTrace` promise, which the code observes
only through `.catch(err => console.warn(...))`.  On success it returns
`{ response, trace }`; on failure it throws `{ error, trace }`. -/
def trackFetchTsx (url : String) (opts : Option Options) (m : Option Meta)
    (fres : Except JsThrow FetchOk) (sendRes : Except JsThrow Unit)
    (t0 t1 t2 : Nat) : TrackResultTsx :=
  let prompt := resolvePromptTsx m (getBody opts)
  let provider := providerOf m
  match fres with
  | .ok r =>
    let trace := buildSuccessTrace prompt provider url opts m r.text r.status (t1 - t0)
    { outcome := .ok (r, trace)
      sent := [trace]
      warnings := match sendRes with
        | .ok _ => []
        | .error _ => ["Lighthouse error:"] }
  | .error e =>
    let trace := buildErrTraceTsx prompt provider e (t2 - t0)
    { outcome := .error (e, trace)
      sent := [trace]
      warnings := match sendRes with
        | .ok _ => []
        | .error _ => ["Lighthouse error:"] }

/-- Result of one test-sdk.js trackFetch call: the value returned or thrown
(the bare response or a bare thrown value, no trace bundled) and the traces
handed to sendTrace, in order. -/
structure TrackResultJs where
  outcome : Except JsThrow FetchOk
  sent : List Trace

/-- test-sdk.js trackFetch (lines 11-53).  `s1` and `s2` are the outcomes of
the first and second sendTrace invocation (at most two occur).  Both
`await this.sendTrace(trace)` calls sit on the primary path: the one on the
success path is inside the try block, so its failure falls into the catch
block, which builds and forwards a second, error-shaped trace and then
throws; a failure of the catch-path sendTrace escapes to the caller in
place of the original error. -/
def trackFetchJs (url : String) (opts : Option Options) (m : Option Meta)
    (fres : Except JsThrow FetchOk) (s1 s2 : Except JsThrow Unit)
    (t0 t1 t2 : Nat) : TrackResultJs :=
  let prompt := resolvePromptJs m
  let provider := providerOf m
  match fres with
  | .ok r =>
    let trace := buildSuccessTrace prompt provider url opts m r.text r.status (t1 - t0)
    match s1 with
    | .ok _ => { outcome := .ok r, sent := [trace] }
    | .error e =>
      let trace2 := buildErrTraceJs prompt provider e (t2 - t0)
      match s2 with
      | .ok _ => { outcome := .error e, sent := [trace, trace2] }
      | .error e2 => { outcome := .error e2, sent := [trace, trace2] }
  | .error e =>
    let trace2 := buildErrTraceJs prompt provider e (t2 - t0)
    match s1 with
    | .ok _ => { outcome := .error e, sent := [trace2] }
    | .error e2 => { outcome := .error e2, sent := [trace2] }

/-- The LighthouseConfig shape (App.tsx lines 5-10). -/
structure Config where
  apiKey : String
  endpoint : Option String
  enabled : Option Bool
  baseUrl : Option String

/-- Fields of the Lighthouse client (App.tsx lines 76-80). -/
structure Lighthouse where
  apiKey : String
  endpoint : String
  baseUrl : String
  enabled : Bool

/-- The Lighthouse constructor (App.tsx lines 82-87, test-sdk.js lines 5-9):
`endpoint`/`baseUrl` default on a falsy config value; `enabled` is
`config.enabled !== false`, so it is true unless the config sets it to
exactly `false`. -/
def mkLighthouse (c : Config) : Lighthouse :=
  { apiKey := c.apiKey
    endpoint :=
      match c.endpoint with
      | some s => if s = "" then "http://localhost:8080/api/sdk/traces" else s
      | none => "http://localhost:8080/api/sdk/traces"
    baseUrl :=
      match c.baseUrl with
      | some s => if s = "" then "http://localhost:8080" else s
      | none => "http://localhost:8080"
    enabled :=
      match c.enabled with
      | some false => false
      | _ => true }

/-- One POST issued by sendTrace: endpoint URL, the X-API-Key credential and
the trace serialized as the body. -/
structure PostRequest where
  url : String
  apiKey : String
  body : Trace

/-- Result of one sendTrace call: the network requests it issued and the
value it returned (`none` models the bare `return;` of the disabled path)
or the error it threw. -/
structure SendResult where
  requests : List PostRequest
  result : Except JsThrow (Option FetchOk)

/-- sendTrace (App.tsx lines 146-160, test-sdk.js lines 55-69).  When the
client is disabled it returns immediately without touching the network.
Otherwise it POSTs the trace; `net` is the outcome of that fetch.  A
non-2xx status throws `Lighthouse API error: <status>`; a 2xx response is
returned (its parsed JSON body, abstracted here as the response itself). -/
def sendTrace (lh : Lighthouse) (tr : Trace) (net : Except JsThrow FetchOk) : SendResult :=
  if lh.enabled = false then { requests := [], result := .ok none }
  else
    let req : PostRequest := { url := lh.endpoint, apiKey := lh.apiKey, body := tr }
    match net with
    | .error e => { requests := [req], result := .error e }
    | .ok r =>
      if 200 ≤ r.status ∧ r.status ≤ 299 then
        { requests := [req], result := .ok (some r) }
      else
        { requests := [req], result := .error (.error ("Lighthouse API error: " ++ toString r.status)) }

/-!  The demo-backend query path of App.tsx (testDemoBackend, lines 349-510). -/

/-- JS whitespace test used to model `String.prototype.trim`. -/
def jsWs (c : Char) : Bool :=
  c = ' ' || c = '\t' || c = '\n' || c = '\r'

/-- `s.trim()`: strip leading and trailing whitespace. -/
def jsTrim (s : String) : String :=
  ⟨((s.data.dropWhile jsWs).reverse.dropWhile jsWs).reverse⟩

/-- `c.toLowerCase()` over the characters of the string. -/
def jsToLower (s : String) : String := ⟨s.data.map Char.toLower⟩

/-- Contiguous-substring test on character lists (JS `String.includes`). -/
def listIncl (needle : List Char) : List Char → Bool
  | [] => needle.isEmpty
  | c :: t => needle.isPrefixOf (c :: t) || listIncl needle t

/-- `hay.includes(needle)`. -/
def strIncl (hay needle : String) : Bool := listIncl needle.data hay.data

/-- The phrase set signalling that the model had no database context
(App.tsx lines 404-411). -/
def noDbContextIndicators : List String :=
  ["i do not have access",
   "i cannot access",
   "i need to know",
   "please provide me with information",
   "what kind of data",
   "what database"]

/-- The phrase set signalling a literal database-connection failure
(App.tsx lines 412-419). -/
def dbConnectionErrorIndicators : List String :=
  ["failed to obtain jdbc connection",
   "jdbc connection",
   "cannot access",
   "database context indicates an error",
   "connection refused",
   "connection timeout"]

/-- The parsed JSON body of a demo-backend reply (App.tsx interface
DemoBackendResponse, lines 43-58). -/
structure DemoData where
  response : String
  success : Bool
  tokensUsed : Option Nat
  costUsd : Option ℚ
  latencyMs : Option Nat
  provider : Option String
  error : Option String
  confidenceScore : Option ℚ
  hallucinationsDetected : Option Bool
  supportedClaims : Option Nat
  totalClaims : Option Nat
  databaseContext : Option String
  traceId : Option String

/-- The query-result record assembled on the success branch (App.tsx
interface QueryWithDbResponse, lines 30-41). -/
structure QueryResultR where
  response : String
  confidenceScore : Option ℚ
  hallucinationsDetected : Option Bool
  supportedClaims : Option Nat
  totalClaims : Option Nat
  databaseContext : Option String
  traceId : Option String
  tokensUsed : Option Nat
  costUsd : Option ℚ
  latencyMs : Option Nat

/-- The `type` discriminator of a TestResult (App.tsx line 68). -/
inductive ResType where
  | success
  | error
deriving DecidableEq

/-- The TestResult set by testDemoBackend (App.tsx interface TestResult,
lines 67-73; `apiResponse` is never set on this path). -/
structure TestResultR where
  type : ResType
  trace : Trace
  queryResult : Option QueryResultR
  message : String

/-- What one testDemoBackend invocation does to the UI state: rejected at a
guard (early return, result state untouched), or completed with the error
banner set or cleared and a result record. -/
inductive DemoOutcome where
  | rejectedPrompt
  | rejectedConnection
  | completed (error : Option String) (result : TestResultR)

/-- Outcome of the demo-backend fetch as observed by testDemoBackend:
a network throw, a non-ok HTTP status with its body text, or parsed JSON. -/
inductive DemoFetch where
  | netError (e : JsThrow)
  | httpError (status : Nat) (text : String)
  | ok (data : DemoData)

/-- Number formatting standing in for JS `toFixed(1)`: round half away from
the floor to one decimal place. -/
def toFixed1 (q : ℚ) : String :=
  let n : ℤ := round (q * 10)
  let sign := if n < 0 then "-" else ""
  let a := n.natAbs
  sign ++ toString (a / 10) ++ "." ++ toString (a % 10)

/-- `data.confidenceScore?.toFixed(1)` interpolated into a template string:
an absent score renders as the text `undefined`. -/
def scoreTextRaw (o : Option ℚ) : String :=
  match o with
  | some q => toFixed1 q
  | none => "undefined"

/-- `data.confidenceScore?.toFixed(1) || 'N/A'`. -/
def scoreTextNA (o : Option ℚ) : String :=
  match o with
  | some q => toFixed1 q
  | none => "N/A"

/-- The catch block of testDemoBackend (App.tsx lines 491-509): set the
error banner and an error-typed result holding a synthesized trace. -/
def demoCatch (demoPrompt msg : String) : DemoOutcome :=
  .completed (some msg)
    { type := .error
      trace :=
        { prompt := demoPrompt
          response := "Error: " ++ msg
          tokensUsed := 0
          costUsd := 0
          latencyMs := 0
          provider := "unknown"
          metadata := fun k =>
            if k = "error" then some (.bool true)
            else if k = "errorMessage" then some (.str msg)
            else if k = "source" then some (.str "demo-backend")
            else none }
      queryResult := none
      message := "❌ Demo backend query failed" }

/-- The eleven `message +=` lines of the connection-error hint
(App.tsx lines 467-477). -/
def dbTroubleshootingText : String :=
  "\n❌ Database Connection Error: The backend cannot connect to the database." ++
  "\n   Backend Troubleshooting:" ++
  "\n   1) Verify application.properties has correct database config:" ++
  "\n      spring.datasource.url=jdbc:postgresql://localhost:5432/mock_data_db" ++
  "\n      spring.datasource.username=postgres" ++
  "\n      spring.datasource.password=your_password" ++
  "\n      spring.datasource.driver-class-name=org.postgresql.Driver" ++
  "\n   2) Check if DatabaseService is properly autowired in AIService" ++
  "\n   3) Verify PostgreSQL JDBC dependency is in pom.xml" ++
  "\n   4) Check backend console logs for detailed error messages" ++
  "\n   5) Restart the Spring Boot application after config changes"

/-- The success branch of testDemoBackend (App.tsx lines 427-487): build the
display trace and optional query result, classify the answer text against
the two phrase sets, and assemble the message; the result's `type` is
`error` exactly when `data.hallucinationsDetected` is truthy. -/
def demoSuccessBranch (demoPrompt connId : String) (data : DemoData) : DemoOutcome :=
  let responseText := if data.response = "" then "" else jsToLower data.response
  let seemsNoDbContext := noDbContextIndicators.any fun ind => strIncl responseText ind
  let hasDbConnectionError := dbConnectionErrorIndicators.any fun ind => strIncl responseText ind
  let trace : Trace :=
    { prompt := demoPrompt
      response := data.response
      tokensUsed := data.tokensUsed.getD 0
      costUsd := data.costUsd.getD 0
      latencyMs := data.latencyMs.getD 0
      provider :=
        match data.provider with
        | some p => if p = "" then "openai" else p
        | none => "openai"
      metadata := fun k =>
        if k = "source" then some (.str "demo-backend")
        else if k = "endpoint" then some (.str "/api/demo/query")
        else if k = "databaseConnectionId" then some (.str connId)
        else if k = "confidenceScore" then
          some (match data.confidenceScore with | some q => .num q | none => .undefined)
        else if k = "hallucinationsDetected" then
          some (match data.hallucinationsDetected with | some b => .bool b | none => .undefined)
        else if k = "supportedClaims" then
          some (match data.supportedClaims with | some n => .num (n : ℚ) | none => .undefined)
        else if k = "totalClaims" then
          some (match data.totalClaims with | some n => .num (n : ℚ) | none => .undefined)
        else none }
  let queryResult : Option QueryResultR :=
    match data.confidenceScore with
    | some _ =>
      some
        { response := data.response
          confidenceScore := data.confidenceScore
          hallucinationsDetected := data.hallucinationsDetected
          supportedClaims := data.supportedClaims
          totalClaims := data.totalClaims
          databaseContext := data.databaseContext
          traceId := data.traceId
          tokensUsed := data.tokensUsed
          costUsd := data.costUsd
          latencyMs := data.latencyMs }
    | none => none
  let hallu := data.hallucinationsDetected = some true
  let baseMessage :=
    if hallu then
      "⚠️ Hallucinations detected! Confidence: " ++ scoreTextRaw data.confidenceScore ++ "%"
    else
      "✅ Query successful! Confidence: " ++ scoreTextNA data.confidenceScore ++ "%"
  let message :=
    if hasDbConnectionError then baseMessage ++ dbTroubleshootingText
    else if seemsNoDbContext && (data.databaseContext.getD "" = "") then
      baseMessage ++ "\n⚠️ Warning: The backend may not be querying the database. Check backend logs."
    else baseMessage
  .completed none
    { type := if hallu then .error else .success
      trace := trace
      queryResult := queryResult
      message := message }

/-- testDemoBackend (App.tsx lines 349-510) as a function of the prompt, the
selected connection id and the demo-backend fetch outcome.  The two guards
return early; a non-ok HTTP status or a `success: false` body throws into
the catch; the success branch classifies and assembles the result. -/
def testDemoProcess (demoPrompt connId : String) (f : DemoFetch) : DemoOutcome :=
  if jsTrim demoPrompt = "" then .rejectedPrompt
  else if connId = "" then .rejectedConnection
  else
    match f with
    | .netError e =>
      demoCatch demoPrompt
        (match e with
         | .error m => m
         | .other => "Failed to query demo backend")
    | .httpError status text =>
      demoCatch demoPrompt ("Demo backend error: " ++ toString status ++ " - " ++ text)
    | .ok data =>
      if data.success then demoSuccessBranch demoPrompt connId data
      else
        demoCatch demoPrompt
          (match data.error with
           | some m => if m = "" then "Query failed" else m
           | none => "Query failed")

/-- The `type` of the result a testDemoBackend invocation recorded, if any. -/
def resultTypeOf : DemoOutcome → Option ResType
  | .completed _ r => some r.type
  | _ => none

/-! Helper lemmas. -/

/-- Natural ceiling division by four agrees with the rational ceiling. -/
theorem ceilDivFour (n : ℕ) : (((n + 3) / 4 : ℕ) : ℤ) = ⌈(n : ℚ) / 4⌉ := by
  obtain ⟨m, hm⟩ : ∃ m, (n + 3) / 4 = m := ⟨_, rfl⟩
  rw [hm]
  have hb1 : n ≤ 4 * m := by omega
  have hb2 : 4 * m ≤ n + 3 := by omega
  have hcast : ((m : ℤ) : ℚ) = (m : ℚ) := by push_cast; rfl
  symm
  rw [Int.ceil_eq_iff]
  constructor
  · have h2 : (4 * m : ℚ) ≤ (n : ℚ) + 3 := by exact_mod_cast hb2
    rw [lt_div_iff₀ (by norm_num : (0 : ℚ) < 4), hcast]
    linarith
  · have h1 : (n : ℚ) ≤ 4 * (m : ℚ) := by exact_mod_cast hb1
    rw [div_le_iff₀ (by norm_num : (0 : ℚ) < 4), hcast]
    linarith

/-- Length of a packed character list. -/
theorem strLength_mk (l : List Char) : (⟨l⟩ : String).length = l.length := rfl

/-- Length of a JS substring-from-zero. -/
theorem jsSubstring_length (s : String) (n : Nat) :
    (jsSubstring s n).length = min n s.length := by
  show (s.data.take n).length = min n s.data.length
  exact List.length_take n s.data

/-! The claims. -/

/-- Claim C4: for every prompt/response pair captured on the success path of
trackFetch (both the App.tsx SDK and the test-sdk.js script), the trace's
tokensUsed equals the ceiling of (length prompt + length response) / 4. -/
theorem claim_C4 :
    ∀ (u : String) (o : Option Options) (m : Option Meta) (r : FetchOk)
      (s s2 : Except JsThrow Unit) (t0 t1 t2 : Nat),
      ((trackFetchTsx u o m (.ok r) s t0 t1 t2).sent.map fun tr => (tr.tokensUsed : ℤ)) =
        [⌈(((resolvePromptTsx m (getBody o)).length + r.text.length : ℕ) : ℚ) / 4⌉] ∧
      ((trackFetchJs u o m (.ok r) (.ok ()) s2 t0 t1 t2).sent.map fun tr => (tr.tokensUsed : ℤ)) =
        [⌈(((resolvePromptJs m).length + r.text.length : ℕ) : ℚ) / 4⌉] := by
  intro u o m r s s2 t0 t1 t2
  refine ⟨?_, ?_⟩
  · exact congrArg (fun z => [z]) (ceilDivFour ((resolvePromptTsx m (getBody o)).length + r.text.length))
  · exact congrArg (fun z => [z]) (ceilDivFour ((resolvePromptJs m).length + r.text.length))

/-- Claim C5: the success-path trace's prompt is the resolved prompt cut to
at most 10,000 units and its response is the response text cut to at most
50,000 units; a 12,000-unit prompt yields exactly 10,000 units and a
60,000-unit response exactly 50,000 (both SDK variants). -/
theorem claim_C5 :
    ∀ (u : String) (o : Option Options) (m : Option Meta) (r : FetchOk)
      (s s2 : Except JsThrow Unit) (t0 t1 t2 : Nat),
      ((trackFetchTsx u o m (.ok r) s t0 t1 t2).sent.map fun tr =>
          (tr.prompt, tr.response, tr.prompt.length, tr.response.length)) =
        [(jsSubstring (resolvePromptTsx m (getBody o)) 10000, jsSubstring r.text 50000,
          min 10000 (resolvePromptTsx m (getBody o)).length, min 50000 r.text.length)] ∧
      ((trackFetchJs u o m (.ok r) (.ok ()) s2 t0 t1 t2).sent.map fun tr =>
          (tr.prompt, tr.response, tr.prompt.length, tr.response.length)) =
        [(jsSubstring (resolvePromptJs m) 10000, jsSubstring r.text 50000,
          min 10000 (resolvePromptJs m).length, min 50000 r.text.length)] ∧
      (∀ p : String, p.length = 12000 → (jsSubstring p 10000).length = 10000) ∧
      (∀ p : String, p.length = 60000 → (jsSubstring p 50000).length = 50000) := by
  intro u o m r s s2 t0 t1 t2
  refine ⟨?_, ?_, ?_, ?_⟩
  · show [(jsSubstring (resolvePromptTsx m (getBody o)) 10000, jsSubstring r.text 50000,
        (jsSubstring (resolvePromptTsx m (getBody o)) 10000).length,
        (jsSubstring r.text 50000).length)] = _
    rw [jsSubstring_length, jsSubstring_length]
  · show [(jsSubstring (resolvePromptJs m) 10000, jsSubstring r.text 50000,
        (jsSubstring (resolvePromptJs m) 10000).length,
        (jsSubstring r.text 50000).length)] = _
    rw [jsSubstring_length, jsSubstring_length]
  · intro p hp
    rw [jsSubstring_length, hp]
    omega
  · intro p hp
    rw [jsSubstring_length, hp]
    omega

/-- Witness for claim C5: a concrete 12,000-unit prompt is truncated to
exactly 10,000 units and a concrete 60,000-unit response to exactly
50,000. -/
theorem claim_C5_witness :
    (jsSubstring ⟨List.replicate 12000 'a'⟩ 10000).length = 10000 ∧
    (jsSubstring ⟨List.replicate 60000 'b'⟩ 50000).length = 50000 := by
  have h := claim_C5 "u" none none ⟨200, "t"⟩ (.ok ()) (.ok ()) 0 0 0
  exact ⟨h.2.2.1 _ (by rw [strLength_mk, List.length_replicate]),
         h.2.2.2 _ (by rw [strLength_mk, List.length_replicate])⟩

/-- The per-text token estimate of the spec's heuristic, used to state the
separate-rates reading of the cost formula. -/
def specTokens (s : String) : Nat := (s.length + 3) / 4

/-- A cost computed from separate input/output token rates, following the
spec's words: a distinct per-1000-token price for the prompt tokens versus
the completion tokens.  Stated only to be compared against the code. -/
def costSpecSeparate (promptTokens completionTokens : Nat) (rIn rOut : ℚ) : ℚ :=
  ((promptTokens : ℚ) / 1000) * rIn + ((completionTokens : ℚ) / 1000) * rOut

/-- Counterexample to claim C6: no pair of distinct per-1000-token rates for
prompt versus completion tokens reproduces the code's cost, which is the
single flat rate 0.002 applied to the combined token count
(`costUsd = (tokensUsed / 1000) * 0.002`, App.tsx line 109). -/
theorem claim_C6_counterexample :
    ¬ ∃ rIn rOut : ℚ, rIn ≠ rOut ∧ ∀ p q : String,
        costOf (tokensOf p q) = costSpecSeparate (specTokens p) (specTokens q) rIn rOut := by
  rintro ⟨rIn, rOut, hne, h⟩
  have e1 := h "aaaa" ""
  have e2 := h "" "aaaa"
  have t1 : tokensOf "aaaa" "" = 1 := by decide
  have t2 : specTokens "aaaa" = 1 := by decide
  have t3 : specTokens "" = 0 := by decide
  have t4 : tokensOf "" "aaaa" = 1 := by decide
  rw [t1, t2, t3] at e1
  rw [t4, t3, t2] at e2
  simp only [costOf, costSpecSeparate] at e1 e2
  push_cast at e1 e2
  apply hne
  linarith

/-- Claim C6 amended: the trace's costUsd is computed from a single flat
rate, 0.002 dollars per 1000 tokens applied to the combined token count, so
the cost is symmetric in the prompt and response texts — there is no
distinct input versus output rate. -/
theorem claim_C6_amended :
    ∀ (u : String) (o : Option Options) (m : Option Meta) (r : FetchOk)
      (s : Except JsThrow Unit) (t0 t1 t2 : Nat),
      ((trackFetchTsx u o m (.ok r) s t0 t1 t2).sent.map fun tr => tr.costUsd) =
        [((tokensOf (resolvePromptTsx m (getBody o)) r.text : ℚ) / 1000) * (2 / 1000)] ∧
      ∀ p q : String, costOf (tokensOf p q) = costOf (tokensOf q p) := by
  intro u o m r s t0 t1 t2
  refine ⟨rfl, ?_⟩
  intro p q
  exact congrArg costOf (by unfold tokensOf; omega)

/-- The trace carried by the value an App.tsx trackFetch call returns or
throws. -/
def outcomeTrace (res : TrackResultTsx) : Trace :=
  match res.outcome with
  | .ok (_, t) => t
  | .error (_, t) => t

/-- Counterexample to claim C1: in the test-sdk.js trackFetch, a call whose
wrapped fetch succeeds but whose forwarding attempt fails makes two
forwarding attempts (the awaited sendTrace sits inside the try block, so
its failure re-enters the catch, which builds and forwards a second
trace). -/
theorem claim_C1_counterexample :
    (trackFetchJs "u" none none (.ok ⟨200, "resp"⟩)
        (.error (.error "Lighthouse API error: 500")) (.ok ()) 0 1 2).sent.length ≠ 1 := by
  decide

/-- Claim C1 amended: the App.tsx trackFetch builds exactly one trace per
call attempt — the very trace bundled into its returned or thrown value —
and hands exactly that one trace to sendTrace; the test-sdk.js trackFetch
does so whenever the wrapped call fails, or succeeds with a successful
forwarding attempt, but builds and forwards a second trace when the wrapped
call succeeds and the forwarding attempt fails. -/
theorem claim_C1_amended :
    ∀ (u : String) (o : Option Options) (m : Option Meta)
      (fres : Except JsThrow FetchOk) (s s2 : Except JsThrow Unit) (t0 t1 t2 : Nat)
      (r : FetchOk) (e e1 : JsThrow),
      (trackFetchTsx u o m fres s t0 t1 t2).sent =
        [outcomeTrace (trackFetchTsx u o m fres s t0 t1 t2)] ∧
      (trackFetchJs u o m (.ok r) (.ok ()) s2 t0 t1 t2).sent.length = 1 ∧
      (trackFetchJs u o m (.error e) s s2 t0 t1 t2).sent.length = 1 ∧
      (trackFetchJs u o m (.ok r) (.error e1) s2 t0 t1 t2).sent.length = 2 := by
  intro u o m fres s s2 t0 t1 t2 r e e1
  refine ⟨?_, rfl, ?_, ?_⟩
  · cases fres <;> rfl
  · cases s <;> rfl
  · cases s2 <;> rfl

/-- Counterexample to claim C2: in the test-sdk.js trackFetch, two calls
identical except for the forwarding outcome settle differently — the caller
observes the forwarding failure instead of the wrapped call's response. -/
theorem claim_C2_counterexample :
    (trackFetchJs "u" none none (.ok ⟨200, "body"⟩) (.error (.error "x")) (.ok ()) 0 1 2).outcome ≠
      (trackFetchJs "u" none none (.ok ⟨200, "body"⟩) (.ok ()) (.ok ()) 0 1 2).outcome := by
  intro h
  have h' : (Except.error (JsThrow.error "x") : Except JsThrow FetchOk) = .ok ⟨200, "body"⟩ := h
  exact Except.noConfusion h'

/-- Claim C2 amended: in the App.tsx trackFetch the value or exception the
caller observes is independent of the forwarding outcome (forwarding
failures are swallowed by the `.catch` handler); in the test-sdk.js
trackFetch the forwarding call is awaited on the primary path, so only when
it succeeds does the caller receive the wrapped call's response
unchanged. -/
theorem claim_C2_amended :
    ∀ (u : String) (o : Option Options) (m : Option Meta)
      (fres : Except JsThrow FetchOk) (s s' s2 : Except JsThrow Unit)
      (t0 t1 t2 : Nat) (r : FetchOk),
      (trackFetchTsx u o m fres s t0 t1 t2).outcome =
        (trackFetchTsx u o m fres s' t0 t1 t2).outcome ∧
      (trackFetchJs u o m (.ok r) (.ok ()) s2 t0 t1 t2).outcome = .ok r := by
  intro u o m fres s s' s2 t0 t1 t2 r
  refine ⟨?_, rfl⟩
  cases fres <;> rfl

/-- Counterexample to claim C3: on the App.tsx failure path the trace's
metadata does not repeat the success-path shape — the url, method and
statusCode keys are all absent. -/
theorem claim_C3_counterexample :
    ((trackFetchTsx "https://x" none none (.error (.error "boom")) (.ok ()) 0 0 5).sent.map
        fun tr => (tr.metadata "url", tr.metadata "method", tr.metadata "statusCode")) =
      [(none, none, none)] ∧
    ((trackFetchTsx "https://x" none none (.error (.error "boom")) (.ok ()) 0 0 5).sent.map
        fun tr => tr.metadata "url") ≠ [some (JsVal.str "https://x")] := by
  exact ⟨by decide, by decide⟩

/-- Claim C3 amended: when the wrapped call throws, the App.tsx trackFetch
builds a trace with zero tokensUsed and costUsd, response set to the
synthesized string `Error: <message>` (never the raw thrown value), latency
measured from the original start time, and metadata holding only the
`error: true` flag and the error message — not the success path's
url/method/statusCode shape; the failure is re-thrown bundled with that
trace as `{error, trace}`.  The test-sdk.js trackFetch re-throws the
original error alone, without the trace. -/
theorem claim_C3_amended :
    ∀ (u : String) (o : Option Options) (m : Option Meta) (e : JsThrow)
      (s s2 : Except JsThrow Unit) (t0 t1 t2 : Nat),
      (trackFetchTsx u o m (.error e) s t0 t1 t2).outcome =
        .error (e, buildErrTraceTsx (resolvePromptTsx m (getBody o)) (providerOf m) e (t2 - t0)) ∧
      (buildErrTraceTsx (resolvePromptTsx m (getBody o)) (providerOf m) e (t2 - t0)).tokensUsed = 0 ∧
      (buildErrTraceTsx (resolvePromptTsx m (getBody o)) (providerOf m) e (t2 - t0)).costUsd = 0 ∧
      (buildErrTraceTsx (resolvePromptTsx m (getBody o)) (providerOf m) e (t2 - t0)).response =
        "Error: " ++ errMessageTsx e ∧
      (buildErrTraceTsx (resolvePromptTsx m (getBody o)) (providerOf m) e (t2 - t0)).latencyMs =
        t2 - t0 ∧
      (buildErrTraceTsx (resolvePromptTsx m (getBody o)) (providerOf m) e (t2 - t0)).metadata
        "error" = some (.bool true) ∧
      (buildErrTraceTsx (resolvePromptTsx m (getBody o)) (providerOf m) e (t2 - t0)).metadata
        "errorMessage" = some (.str (errMessageTsx e)) ∧
      (buildErrTraceTsx (resolvePromptTsx m (getBody o)) (providerOf m) e (t2 - t0)).metadata
        "url" = none ∧
      (buildErrTraceTsx (resolvePromptTsx m (getBody o)) (providerOf m) e (t2 - t0)).metadata
        "method" = none ∧
      (buildErrTraceTsx (resolvePromptTsx m (getBody o)) (providerOf m) e (t2 - t0)).metadata
        "statusCode" = none ∧
      (trackFetchTsx u o m (.error e) s t0 t1 t2).sent =
        [buildErrTraceTsx (resolvePromptTsx m (getBody o)) (providerOf m) e (t2 - t0)] ∧
      (trackFetchJs u o m (.error e) (.ok ()) s2 t0 t1 t2).outcome = .error e := by
  intro u o m e s s2 t0 t1 t2
  exact ⟨rfl, rfl, rfl, rfl, rfl, rfl, rfl, rfl, rfl, rfl, rfl, rfl⟩

/-- Counterexample to claim C7: a caller metadata whose `prompt` key is
present but holds the empty string (a falsy value) is not used — the App.tsx
resolution falls through to the parsed request body instead. -/
theorem claim_C7_counterexample :
    ((fun k => if k = "prompt" then some (JsVal.str "") else none : Meta) "prompt" =
        some (JsVal.str "")) ∧
    resolvePromptTsx (some fun k => if k = "prompt" then some (JsVal.str "") else none)
        (.parsedObj (some "hi")) = "hi" ∧
    resolvePromptTsx (some fun k => if k = "prompt" then some (JsVal.str "") else none)
        (.parsedObj (some "hi")) ≠ "" := by
  exact ⟨by decide, by decide, by decide⟩

/-- Claim C7 amended: the effective-prompt resolution never raises.  In
App.tsx it uses `metadata.prompt` when present and truthy (a present but
falsy value, such as the empty string, is skipped), otherwise it parses the
request body and extracts its prompt field, recovering to the empty string
on any parse failure; in test-sdk.js it uses a truthy `metadata.prompt` and
otherwise the empty string, with no body parsing at all. -/
theorem claim_C7_amended :
    (∀ (m : Option Meta) (b : BodyParse), resolvePromptTsxE m b = .ok (resolvePromptTsx m b)) ∧
    (∀ (m : Option Meta) (b : BodyParse) (v : JsVal),
      metaGet m "prompt" = some v → truthy v = true → resolvePromptTsx m b = coerceStr v) ∧
    (∀ (m : Option Meta) (b : BodyParse) (v : JsVal),
      metaGet m "prompt" = some v → truthy v = false → resolvePromptTsx m b = bodyPrompt b) ∧
    (∀ b : BodyParse, resolvePromptTsx none b = bodyPrompt b) ∧
    (bodyPrompt .parseThrow = "" ∧ bodyPrompt .parsedNull = "" ∧ bodyPrompt .noBody = "") ∧
    (∀ (m : Option Meta) (v : JsVal),
      metaGet m "prompt" = some v → truthy v = true → resolvePromptJs m = coerceStr v) ∧
    (∀ (m : Option Meta) (v : JsVal),
      metaGet m "prompt" = some v → truthy v = false → resolvePromptJs m = "") ∧
    (∀ m : Option Meta, metaGet m "prompt" = none → resolvePromptJs m = "") := by
  refine ⟨?_, ?_, ?_, ?_, ⟨rfl, rfl, rfl⟩, ?_, ?_, ?_⟩
  · intro m b
    unfold resolvePromptTsxE resolvePromptTsx bodyPrompt
    cases metaGet m "prompt" with
    | none => cases bodyPromptE b <;> rfl
    | some v =>
      cases htv : truthy v
      · simp only [htv, Bool.false_eq_true, if_neg, ite_false]
        cases bodyPromptE b <;> rfl
      · simp [htv]
  · intro m b v h ht
    unfold resolvePromptTsx
    rw [h]
    simp [ht]
  · intro m b v h ht
    unfold resolvePromptTsx
    rw [h]
    simp [ht]
  · intro b
    rfl
  · intro m v h ht
    unfold resolvePromptJs
    rw [h]
    simp [ht]
  · intro m v h ht
    unfold resolvePromptJs
    rw [h]
    simp [ht]
  · intro m h
    unfold resolvePromptJs
    rw [h]

/-- Witness for claim C7: a truthy caller prompt is used verbatim. -/
theorem claim_C7_witness :
    resolvePromptTsx (some fun k => if k = "prompt" then some (JsVal.str "hello") else none)
        .noBody = "hello" :=
  claim_C7_amended.2.1 _ .noBody (JsVal.str "hello") (by decide) (by decide)

/-- Claim C8: in the metadata of every success-path trace, a caller-supplied
key overrides the synthesized entry, so for the reserved keys url, method
and statusCode the instrumentation never overrides a caller value. -/
theorem claim_C8 :
    ∀ (u : String) (o : Option Options) (m : Meta) (r : FetchOk)
      (s : Except JsThrow Unit) (t0 t1 t2 : Nat) (k : String) (v : JsVal),
      m k = some v →
      ((trackFetchTsx u o (some m) (.ok r) s t0 t1 t2).sent.map fun tr => tr.metadata k) =
        [some v] := by
  intro u o m r s t0 t1 t2 k v h
  show [mergeMeta (some m) (synthMeta u o r.status) k] = [some v]
  simp [mergeMeta, metaGet, h]

/-- Witness for claim C8: a caller-supplied url survives the merge. -/
theorem claim_C8_witness :
    ((trackFetchTsx "u" none (some fun k => if k = "url" then some (JsVal.str "mine") else none)
        (.ok ⟨200, "t"⟩) (.ok ()) 0 1 2).sent.map fun tr => tr.metadata "url") =
      [some (JsVal.str "mine")] :=
  claim_C8 "u" none (fun k => if k = "url" then some (JsVal.str "mine") else none)
    ⟨200, "t"⟩ (.ok ()) 0 1 2 "url" (JsVal.str "mine") (by decide)

/-- Claim C9: for every parsed demo-backend reply, the recorded result type
depends only on the reply's success flag and hallucination flag — the
phrase-set classification of the answer text never changes whether the
result is recorded as success or error. -/
theorem claim_C9 :
    ∀ (p c : String) (d : DemoData), jsTrim p ≠ "" → c ≠ "" →
      resultTypeOf (testDemoProcess p c (.ok d)) =
        some (if d.success = true then
                (if d.hallucinationsDetected = some true then ResType.error else ResType.success)
              else ResType.error) := by
  intro p c d hp hc
  unfold testDemoProcess
  rw [if_neg hp, if_neg hc]
  by_cases hs : d.success = true
  · simp [hs, demoSuccessBranch, resultTypeOf]
  · simp [hs, demoCatch, resultTypeOf]

/-- Witness for claim C9: a concrete successful reply with no hallucination
flag is recorded as a success. -/
theorem claim_C9_witness :
    resultTypeOf (testDemoProcess "hi" "conn" (.ok
      { response := "hello", success := true, tokensUsed := none, costUsd := none,
        latencyMs := none, provider := none, error := none, confidenceScore := none,
        hallucinationsDetected := none, supportedClaims := none, totalClaims := none,
        databaseContext := none, traceId := none })) = some ResType.success := by
  have h := claim_C9 "hi" "conn"
    { response := "hello", success := true, tokensUsed := none, costUsd := none,
      latencyMs := none, provider := none, error := none, confidenceScore := none,
      hallucinationsDetected := none, supportedClaims := none, totalClaims := none,
      databaseContext := none, traceId := none } (by decide) (by decide)
  simpa using h

/-- Claim C10: with `enabled: false` in the configuration, sendTrace issues
no network request and returns without error; `enabled` defaults to true
whenever the configuration leaves it unset or sets it to true. -/
theorem claim_C10 :
    ∀ (key : String) (ep bu : Option String) (tr : Trace) (net : Except JsThrow FetchOk),
      (sendTrace (mkLighthouse ⟨key, ep, some false, bu⟩) tr net).requests = [] ∧
      (sendTrace (mkLighthouse ⟨key, ep, some false, bu⟩) tr net).result = .ok none ∧
      (mkLighthouse ⟨key, ep, none, bu⟩).enabled = true ∧
      (mkLighthouse ⟨key, ep, some true, bu⟩).enabled = true := by
  intro key ep bu tr net
  exact ⟨rfl, rfl, rfl, rfl⟩

end LighthouseDemo
